import Mathlib

/-!
# Verification of `analysis/scripts/data_loader.py`

A shallow embedding of the Evo Wars statistics loader.  JSON values are
modelled by `JValue`, Python exceptions by `PyError`, and each function of
`SimulationDataLoader` is translated into a Lean function over these types.
Pandas `DataFrame`s built from a list of uniform-key record dicts are
modelled by `DataFrame` (a column-name list plus positional row cells).
The file system seen by `open`/`json.load` is an explicit environment
(`FS`): a path is either absent (FileNotFoundError), present but not valid
JSON (JSONDecodeError), or maps to a parsed top-level JSON object, which is
the declared type (`stats: Dict`) of every document handled by the loader.
-/

set_option autoImplicit false

/-- A JSON value, as produced by `json.load`. -/
inductive JValue where
  | null
  | bool (b : Bool)
  | num (n : Int)
  | str (s : String)
  | arr (elems : List JValue)
  | obj (fields : List (String × JValue))

/-- The Python exception kinds that the loader's code paths can raise.
`valueError` carries the exception message (`str(e)`). -/
inductive PyError where
  | valueError (msg : String)
  | keyError
  | indexError
  | typeError
  | attributeError
  | fileNotFoundError
  | jsonDecodeError
  deriving DecidableEq, Repr

/-- A parsed top-level statistics document: the JSON object's fields in
insertion order (Python dicts preserve insertion order, keys are unique). -/
abbrev Doc := List (String × JValue)

/-- The file-system environment: each existing path maps to `some doc`
when its content parses as a JSON object, `none` when it is unparseable. -/
abbrev FS := List (String × Option Doc)

/-- Key lookup in a JSON object / Python dict (`d[k]` when present). -/
def lookupKey (fields : List (String × JValue)) (k : String) : Option JValue :=
  (fields.find? (fun p => p.1 == k)).map (fun p => p.2)

/-- Python `v.get(k, dflt)`: defaulting key lookup, an `AttributeError`
when `v` is not a dict. -/
def pyGet (v : JValue) (k : String) (dflt : JValue) : Except PyError JValue :=
  match v with
  | .obj fields => .ok ((lookupKey fields k).getD dflt)
  | _ => .error .attributeError

/-- Python `len(v)`: a `TypeError` on values with no length. -/
def pyLen : JValue → Except PyError Nat
  | .arr xs => .ok xs.length
  | .str s => .ok s.length
  | .obj fields => .ok fields.length
  | _ => .error .typeError

/-- Python `v[i]` for a non-negative integer index `i`: positional on
lists and strings, a `KeyError` on (string-keyed) dicts, a `TypeError`
on non-subscriptable values. -/
def pyIndexNat (v : JValue) (i : Nat) : Except PyError JValue :=
  match v with
  | .arr xs =>
    match xs[i]? with
    | some x => .ok x
    | none => .error .indexError
  | .str s =>
    match s.data[i]? with
    | some c => .ok (.str (String.singleton c))
    | none => .error .indexError
  | .obj _ => .error .keyError
  | _ => .error .typeError

/-- Python iteration (`for x in v`): lists yield elements, strings yield
one-character strings, dicts yield their keys; other values raise
`TypeError`. -/
def pyIter : JValue → Except PyError (List JValue)
  | .arr xs => .ok xs
  | .str s => .ok (s.data.map (fun c => .str (String.singleton c)))
  | .obj fields => .ok (fields.map (fun p => .str p.1))
  | _ => .error .typeError

/-- The per-series cell expression of the projection loops:
`data.get(k, [])[i] if i < len(data.get(k, [])) else None`.
A `none` result models Python `None` (the missing-value marker). -/
def seriesAt (data : JValue) (k : String) (i : Nat) :
    Except PyError (Option JValue) := do
  let s ← pyGet data k (.arr [])
  let n ← pyLen s
  if i < n then
    let x ← pyIndexNat s i
    pure (some x)
  else
    pure none

/-- The metric entries of one record dict, evaluated left to right:
for each `(jsonKey, outKey)` of the selection, the bounds-guarded cell. -/
def buildMetrics (data : JValue) (i : Nat) :
    List (String × String) → Except PyError (List (String × Option JValue))
  | [] => .ok []
  | q :: qs => do
    let v ← seriesAt data q.1 i
    let rest ← buildMetrics data i qs
    pure ((q.2, v) :: rest)

/-- One record dict of the loop body:
`{'time': time, out₁: cell₁, ...}` at loop index `i`. -/
def buildRecord (data : JValue) (sel : List (String × String)) (i : Nat)
    (t : JValue) : Except PyError (List (String × Option JValue)) := do
  let metrics ← buildMetrics data i sel
  pure (("time", some t) :: metrics)

/-- The loop `for i, time in enumerate(data.get('time', [])): records.append(...)`,
with `i` threaded explicitly. -/
def buildRecords (data : JValue) (sel : List (String × String)) :
    List JValue → Nat → Except PyError (List (List (String × Option JValue)))
  | [], _ => .ok []
  | t :: ts, i => do
    let r ← buildRecord data sel i t
    let rs ← buildRecords data sel ts (i + 1)
    pure (r :: rs)

/-- A pandas `DataFrame`: column names and positional row cells. -/
structure DataFrame where
  cols : List String
  cells : List (List (Option JValue))

/-- Pandas `pd.DataFrame(records)` for a list of record dicts that all share the
same keys (as in the loader, where every record literal has identical
keys): the columns are the first record's keys, and each row is the
record's values in key order; `pd.DataFrame([])` has no columns. -/
def mkDataFrame : List (List (String × Option JValue)) → DataFrame
  | [] => ⟨[], []⟩
  | r :: rs => ⟨r.map Prod.fst, (r :: rs).map (fun row => row.map Prod.snd)⟩

/-- The cell part of `df['step'] = range(len(df))`: append the running
index to every row. -/
def addStepCells : List (List (Option JValue)) → Nat → List (List (Option JValue))
  | [], _ => []
  | row :: rows, i => (row ++ [some (.num (Int.ofNat i))]) :: addStepCells rows (i + 1)

/-- The assignment `df['step'] = range(len(df))`: a new `step` column holding `0..n-1`
(the record dicts never contain a `step` key, so this is always a fresh
column; on an empty frame it is the only column). -/
def addStep (df : DataFrame) : DataFrame :=
  ⟨df.cols ++ ["step"], addStepCells df.cells 0⟩

/-- Pandas `pd.DataFrame()` with no arguments: the empty frame. -/
def emptyDataFrame : DataFrame := ⟨[], []⟩

/-- Column extraction (`df[c]`), the observer used to state properties:
`none` when the column is absent, otherwise the cell under `c` of each
row in order. -/
def getCol (df : DataFrame) (c : String) : Option (List (Option JValue)) :=
  match df.cols.findIdx? (fun x => x == c) with
  | none => none
  | some i => some (df.cells.map (fun row => (row[i]?).getD none))

/-- The common body of the three `to_*_dataframe` methods, which repeat
it verbatim with different series selections: require `data`, iterate
`data.get('time', [])`, build one record per time entry, make a frame
and append the `step` column. -/
def project (stats : Doc) (sel : List (String × String)) :
    Except PyError DataFrame :=
  match lookupKey stats "data" with
  | none => .error (.valueError "No data found in statistics")
  | some data => do
    let timeSeq ← pyGet data "time" (.arr [])
    let times ← pyIter timeSeq
    let records ← buildRecords data sel times 0
    pure (addStep (mkDataFrame records))

/-- The series selection of `to_population_dataframe`. -/
def populationSeries : List (String × String) :=
  [("aliveOrganisms", "alive_organisms"),
   ("foodCount", "food_count"),
   ("averageEnergy", "average_energy")]

/-- The series selection of `to_species_dataframe`. -/
def speciesSeries : List (String × String) :=
  [("speciesCount", "species_count"),
   ("topSpeciesCount", "top_species_count")]

/-- The series selection of `to_interactions_dataframe`. -/
def interactionsSeries : List (String × String) :=
  [("combatKills", "combat_kills"),
   ("cooperationEvents", "cooperation_events"),
   ("averageGenomeLength", "average_genome_length")]

/-- The loader object: its only state is the configured base directory. -/
structure SimulationDataLoader where
  data_dir : String

namespace SimulationDataLoader

/-- Method `load_statistics`: resolve the path against `data_dir` and parse the
file; `FileNotFoundError` when the path does not exist, `JSONDecodeError`
when the content is not valid JSON. -/
def load_statistics (self : SimulationDataLoader) (fs : FS) (filename : String) :
    Except PyError Doc :=
  match (fs.find? (fun p => p.1 == self.data_dir ++ "/" ++ filename)).map
      (fun p => p.2) with
  | none => .error .fileNotFoundError
  | some none => .error .jsonDecodeError
  | some (some doc) => .ok doc

/-- Method `to_population_dataframe`. -/
def to_population_dataframe (_self : SimulationDataLoader) (stats : Doc) :
    Except PyError DataFrame :=
  project stats populationSeries

/-- Method `to_species_dataframe`. -/
def to_species_dataframe (_self : SimulationDataLoader) (stats : Doc) :
    Except PyError DataFrame :=
  project stats speciesSeries

/-- Method `to_interactions_dataframe`. -/
def to_interactions_dataframe (_self : SimulationDataLoader) (stats : Doc) :
    Except PyError DataFrame :=
  project stats interactionsSeries

/-- Method `get_metadata`, i.e. the call `stats.get('metadata', \x7b\x7d)`. -/
def get_metadata (_self : SimulationDataLoader) (stats : Doc) : JValue :=
  (lookupKey stats "metadata").getD (.obj [])

end SimulationDataLoader

/-- The clause `except (ValueError, KeyError, IndexError)`: the exception kinds the
three `try` blocks of `load_all_data` catch. -/
def isCatchable : PyError → Bool
  | .valueError _ => true
  | .keyError => true
  | .indexError => true
  | _ => false

/-- Python `str(e)` as rendered into the warning text. -/
def errStr : PyError → String
  | .valueError m => m
  | .keyError => "KeyError"
  | .indexError => "list index out of range"
  | .typeError => "TypeError"
  | .attributeError => "AttributeError"
  | .fileNotFoundError => "FileNotFoundError"
  | .jsonDecodeError => "JSONDecodeError"

/-- One `try`/`except` block of `load_all_data`: on success the frame and
no warning; on a caught kind the empty frame plus the printed warning
line; any other exception propagates. -/
def tryDataFrame (name : String) (r : Except PyError DataFrame) :
    Except PyError (DataFrame × List String) :=
  match r with
  | .ok df => .ok (df, [])
  | .error e =>
    if isCatchable e then
      .ok (emptyDataFrame,
        ["Warning: Could not load " ++ name ++ " data: " ++ errStr e])
    else
      .error e

/-- The result bundle of `load_all_data`. -/
structure AllData where
  population : DataFrame
  species : DataFrame
  interactions : DataFrame
  metadata : JValue

/-- Method `load_all_data`: read the file (failures propagate), then attempt the
three projections independently, each downgraded to an empty frame plus a
warning on a caught exception kind, and finish with the metadata. The
emitted warning lines are returned alongside the bundle. -/
def SimulationDataLoader.load_all_data (self : SimulationDataLoader) (fs : FS)
    (filename : String) : Except PyError (AllData × List String) := do
  let stats ← self.load_statistics fs filename
  let (pop, w1) ← tryDataFrame "population" (self.to_population_dataframe stats)
  let (spec, w2) ← tryDataFrame "species" (self.to_species_dataframe stats)
  let (inter, w3) ← tryDataFrame "interactions" (self.to_interactions_dataframe stats)
  pure (⟨pop, spec, inter, self.get_metadata stats⟩, w1 ++ w2 ++ w3)

/-- Function `load_simulation(filename, data_dir)`: construct a loader over
`data_dir` and call `load_all_data`. -/
def load_simulation (fs : FS) (filename : String)
    (data_dir : String := "../data") : Except PyError (AllData × List String) :=
  (SimulationDataLoader.mk data_dir).load_all_data fs filename

/-! ## Spec-side observers -/

/-- The element list of an array value (`[]` for non-arrays). -/
def arrElems : JValue → List JValue
  | .arr xs => xs
  | _ => []

/-- Whether a JSON value is an array. -/
def JValue.isArr : JValue → Bool
  | .arr _ => true
  | _ => false

/-- The list behind a named series of a `data` mapping; an absent series
is the empty sequence. -/
def seriesList (d : Doc) (k : String) : List JValue :=
  match lookupKey d k with
  | some v => arrElems v
  | none => []

/-- The data-model invariant of the spec (§3): `data` is a mapping of
named arrays, i.e. every value stored in it is a JSON array. -/
def IsArrayDoc (d : Doc) : Prop := ∀ p ∈ d, (p.2).isArr = true

/-- The pure record list that `buildRecords` computes on a document whose
series are all arrays: one record per `time` entry, each metric cell
being the series element at the loop index when in bounds. -/
def pureRecords (d : Doc) (sel : List (String × String)) :
    List JValue → Nat → List (List (String × Option JValue))
  | [], _ => []
  | t :: ts, i =>
    (("time", some t) :: sel.map (fun q => (q.2, (seriesList d q.1)[i]?)))
      :: pureRecords d sel ts (i + 1)

/-- The cell rows of `pureRecords` with the field names dropped. -/
def pureCells (d : Doc) (sel : List (String × String)) :
    List JValue → Nat → List (List (Option JValue))
  | [], _ => []
  | t :: ts, i =>
    (some t :: sel.map (fun q => (seriesList d q.1)[i]?))
      :: pureCells d sel ts (i + 1)

/-! ## Evaluation lemmas -/

@[simp] theorem pyOkBind {α β : Type} (a : α) (f : α → Except PyError β) :
    (Except.ok a >>= f) = f a := rfl

@[simp] theorem pyErrorBind {α β : Type} (e : PyError) (f : α → Except PyError β) :
    ((Except.error e : Except PyError α) >>= f) = Except.error e := rfl

theorem seriesList_spec {d : Doc} (hd : IsArrayDoc d) (k : String) :
    (lookupKey d k).getD (.arr []) = .arr (seriesList d k) := by
  unfold seriesList
  cases h : lookupKey d k with
  | none => rfl
  | some v =>
    rw [lookupKey] at h
    rcases Option.map_eq_some'.mp h with ⟨p, hfind, hv⟩
    have hmem := List.mem_of_find?_eq_some hfind
    have harr := hd p hmem
    rw [hv] at harr
    cases v <;> simp [JValue.isArr] at harr
    rfl

theorem seriesAt_ok {d : Doc} (hd : IsArrayDoc d) (k : String) (i : Nat) :
    seriesAt (.obj d) k i = .ok ((seriesList d k)[i]?) := by
  simp only [seriesAt, pyGet]
  rw [seriesList_spec hd]
  simp only [pyOkBind, pyLen]
  by_cases h : i < (seriesList d k).length
  · simp only [h, if_pos, pyIndexNat, List.getElem?_eq_getElem h, pyOkBind]
    rfl
  · simp only [h, if_neg, not_false_iff]
    rw [List.getElem?_eq_none (Nat.le_of_not_lt h)]
    rfl

theorem buildMetrics_ok {d : Doc} (hd : IsArrayDoc d) (i : Nat) :
    ∀ sel : List (String × String),
      buildMetrics (.obj d) i sel
        = .ok (sel.map (fun q => (q.2, (seriesList d q.1)[i]?)))
  | [] => rfl
  | q :: qs => by
    simp [buildMetrics, seriesAt_ok hd, buildMetrics_ok hd i qs]

theorem buildRecords_ok {d : Doc} (hd : IsArrayDoc d)
    (sel : List (String × String)) :
    ∀ (ts : List JValue) (n : Nat),
      buildRecords (.obj d) sel ts n = .ok (pureRecords d sel ts n)
  | [], _ => rfl
  | t :: ts, n => by
    simp [buildRecords, buildRecord, buildMetrics_ok hd,
      buildRecords_ok hd sel ts (n + 1), pureRecords]

theorem project_ok {stats d : Doc}
    (hdata : lookupKey stats "data" = some (.obj d)) (hd : IsArrayDoc d)
    (sel : List (String × String)) :
    project stats sel
      = .ok (addStep (mkDataFrame (pureRecords d sel (seriesList d "time") 0))) := by
  unfold project
  rw [hdata]
  simp only [pyGet]
  rw [seriesList_spec hd]
  simp [pyIter, buildRecords_ok hd]

/-! ## Structural lemmas about the produced frames -/

theorem pureRecords_length (d : Doc) (sel : List (String × String)) :
    ∀ (ts : List JValue) (n : Nat), (pureRecords d sel ts n).length = ts.length
  | [], _ => rfl
  | t :: ts, n => by
    simp [pureRecords, pureRecords_length d sel ts (n + 1)]

theorem pureRecords_cells (d : Doc) (sel : List (String × String)) :
    ∀ (ts : List JValue) (n : Nat),
      (pureRecords d sel ts n).map (fun r => r.map Prod.snd)
        = pureCells d sel ts n
  | [], _ => rfl
  | t :: ts, n => by
    simp [pureRecords, pureCells, pureRecords_cells d sel ts (n + 1),
      List.map_map, Function.comp]

theorem mkDataFrame_cells :
    ∀ rs : List (List (String × Option JValue)),
      (mkDataFrame rs).cells = rs.map (fun row => row.map Prod.snd)
  | [] => rfl
  | _ :: _ => rfl

theorem addStepCells_length :
    ∀ (rows : List (List (Option JValue))) (n : Nat),
      (addStepCells rows n).length = rows.length
  | [], _ => rfl
  | r :: rows, n => by
    simp [addStepCells, addStepCells_length rows (n + 1)]

theorem concat_getElem?_len {α : Type} (l : List α) (x : α) (n : Nat)
    (h : l.length = n) : (l ++ [x])[n]? = some x := by
  subst h
  exact List.getElem?_concat_length l x

theorem stepCol_cells (d : Doc) (sel : List (String × String)) :
    ∀ (ts : List JValue) (n : Nat),
      (addStepCells (pureCells d sel ts n) n).map
          (fun row => (row[sel.length + 1]?).getD none)
      = (List.range' n ts.length).map (fun i => some (JValue.num (Int.ofNat i)))
  | [], _ => rfl
  | t :: ts, n => by
    simp only [pureCells, addStepCells, List.map_cons, List.length_cons,
      List.range'_succ]
    rw [stepCol_cells d sel ts (n + 1)]
    have hlen : (sel.map (fun q => (seriesList d q.1)[n]?)).length = sel.length := by
      simp
    rw [List.cons_append, List.getElem?_cons_succ,
      concat_getElem?_len _ _ _ hlen]
    rfl

theorem metricCol_cells (d : Doc) (sel : List (String × String)) (j : Nat)
    (key outKey : String) (hj : sel[j]? = some (key, outKey)) :
    ∀ (ts : List JValue) (n : Nat),
      (addStepCells (pureCells d sel ts n) n).map
          (fun row => (row[j + 1]?).getD none)
      = (List.range' n ts.length).map (fun i => (seriesList d key)[i]?)
  | [], _ => rfl
  | t :: ts, n => by
    have hjlt : j < sel.length := by
      by_contra h
      rw [List.getElem?_eq_none (Nat.le_of_not_lt h)] at hj
      cases hj
    simp only [pureCells, addStepCells, List.map_cons, List.length_cons,
      List.range'_succ]
    rw [metricCol_cells d sel j key outKey hj ts (n + 1)]
    have hjlt' : j < (sel.map (fun q => (seriesList d q.1)[n]?)).length := by
      simpa using hjlt
    rw [List.cons_append, List.getElem?_cons_succ,
      List.getElem?_append_left hjlt', List.getElem?_map, hj]
    rfl

theorem addStep_pureRecords_cons (d : Doc) (sel : List (String × String))
    (t : JValue) (ts : List JValue) :
    addStep (mkDataFrame (pureRecords d sel (t :: ts) 0))
      = ⟨("time" :: sel.map Prod.snd) ++ ["step"],
         addStepCells (pureCells d sel (t :: ts) 0) 0⟩ := by
  have hcols : (mkDataFrame (pureRecords d sel (t :: ts) 0)).cols
      = "time" :: sel.map Prod.snd := by
    simp [pureRecords, mkDataFrame, List.map_map, Function.comp]
  have hcells : (mkDataFrame (pureRecords d sel (t :: ts) 0)).cells
      = pureCells d sel (t :: ts) 0 := by
    rw [mkDataFrame_cells, pureRecords_cells]
  simp [addStep, hcols, hcells]

theorem project_cells_length {stats d : Doc}
    (hdata : lookupKey stats "data" = some (.obj d)) (hd : IsArrayDoc d)
    (sel : List (String × String)) :
    ∃ df : DataFrame, project stats sel = .ok df ∧
      df.cells.length = (seriesList d "time").length := by
  refine ⟨_, project_ok hdata hd sel, ?_⟩
  simp [addStep, addStepCells_length, mkDataFrame_cells, pureRecords_length]

theorem project_step_col {stats d : Doc}
    (hdata : lookupKey stats "data" = some (.obj d)) (hd : IsArrayDoc d)
    (sel : List (String × String))
    (hfind : (("time" :: sel.map Prod.snd) ++ ["step"]).findIdx?
        (fun x => x == "step") = some (sel.length + 1)) :
    ∃ df : DataFrame, project stats sel = .ok df ∧
      df.cells.length = (seriesList d "time").length ∧
      getCol df "step"
        = some ((List.range (seriesList d "time").length).map
            (fun i => some (JValue.num (Int.ofNat i)))) := by
  refine ⟨_, project_ok hdata hd sel, ?_, ?_⟩
  · simp [addStep, addStepCells_length, mkDataFrame_cells, pureRecords_length]
  · cases hts : seriesList d "time" with
    | nil =>
      show getCol (addStep (mkDataFrame [])) "step" = _
      simp [getCol, addStep, mkDataFrame, addStepCells]
    | cons t ts' =>
      rw [addStep_pureRecords_cons]
      simp only [getCol, hfind]
      rw [stepCol_cells d sel (t :: ts') 0, List.range_eq_range']

theorem project_metric_col {stats d : Doc}
    (hdata : lookupKey stats "data" = some (.obj d)) (hd : IsArrayDoc d)
    (sel : List (String × String)) (j : Nat) (key outKey : String)
    (hj : sel[j]? = some (key, outKey))
    (hfind : (("time" :: sel.map Prod.snd) ++ ["step"]).findIdx?
        (fun x => x == outKey) = some (j + 1))
    (hne : seriesList d "time" ≠ []) :
    ∃ df : DataFrame, project stats sel = .ok df ∧
      getCol df outKey
        = some ((List.range (seriesList d "time").length).map
            (fun i => (seriesList d key)[i]?)) := by
  refine ⟨_, project_ok hdata hd sel, ?_⟩
  cases hts : seriesList d "time" with
  | nil => exact absurd hts hne
  | cons t ts' =>
    rw [addStep_pureRecords_cons]
    simp only [getCol, hfind]
    rw [metricCol_cells d sel j key outKey hj (t :: ts') 0, List.range_eq_range']

/-! ## Claim theorems -/

/-- Statement that `r` is a successful projection producing `n` rows whose `step` column
is exactly `0..n-1` in row order. -/
def RowsAndStep (r : Except PyError DataFrame) (n : Nat) : Prop :=
  ∃ df, r = .ok df ∧ df.cells.length = n ∧
    getCol df "step"
      = some ((List.range n).map (fun i => some (JValue.num (Int.ofNat i))))

/-- C1: for every document whose `data` entry is a mapping of named
arrays, each of the three projections returns a table with one row per
element of `data['time']` (an absent `time` series counting as empty),
and its `step` column holds exactly `0..n-1` in row order. -/
theorem C1_row_count_and_step (L : SimulationDataLoader) (stats d : Doc)
    (hdata : lookupKey stats "data" = some (.obj d)) (hd : IsArrayDoc d) :
    RowsAndStep (L.to_population_dataframe stats) (seriesList d "time").length ∧
    RowsAndStep (L.to_species_dataframe stats) (seriesList d "time").length ∧
    RowsAndStep (L.to_interactions_dataframe stats) (seriesList d "time").length := by
  refine ⟨?_, ?_, ?_⟩
  · exact project_step_col hdata hd populationSeries (by decide)
  · exact project_step_col hdata hd speciesSeries (by decide)
  · exact project_step_col hdata hd interactionsSeries (by decide)

/-- Witness for C1 at the spec's concrete scenario
`{"data": {"time": [0,1,2], "aliveOrganisms": [10,9]}}`. -/
theorem C1_row_count_and_step_witness :
    RowsAndStep
      ((SimulationDataLoader.mk "../data").to_population_dataframe
        [("data", JValue.obj
          [("time", JValue.arr [JValue.num 0, JValue.num 1, JValue.num 2]),
           ("aliveOrganisms", JValue.arr [JValue.num 10, JValue.num 9])])])
      3 :=
  (C1_row_count_and_step (SimulationDataLoader.mk "../data")
    [("data", JValue.obj
      [("time", JValue.arr [JValue.num 0, JValue.num 1, JValue.num 2]),
       ("aliveOrganisms", JValue.arr [JValue.num 10, JValue.num 9])])]
    [("time", JValue.arr [JValue.num 0, JValue.num 1, JValue.num 2]),
     ("aliveOrganisms", JValue.arr [JValue.num 10, JValue.num 9])]
    rfl (by unfold IsArrayDoc; decide)).1

theorem seriesList_of_lookup {d : Doc} {k : String} {s : List JValue}
    (h : lookupKey d k = some (.arr s)) : seriesList d k = s := by
  simp [seriesList, h, arrElems]

theorem seriesList_of_lookup_none {d : Doc} {k : String}
    (h : lookupKey d k = none) : seriesList d k = [] := by
  simp [seriesList, h]

theorem metric_col_props {stats d : Doc}
    (hdata : lookupKey stats "data" = some (.obj d)) (hd : IsArrayDoc d)
    (sel : List (String × String)) (j : Nat) (key outKey : String)
    (hj : sel[j]? = some (key, outKey))
    (hfind : (("time" :: sel.map Prod.snd) ++ ["step"]).findIdx?
        (fun x => x == outKey) = some (j + 1))
    (s : List JValue) (hs : lookupKey d key = some (.arr s))
    (hlen : s.length < (seriesList d "time").length) :
    ∃ df cv, project stats sel = .ok df ∧ getCol df outKey = some cv ∧
      cv.length = (seriesList d "time").length ∧
      (∀ i, i < (seriesList d "time").length → s.length ≤ i →
        cv[i]? = some none) ∧
      (∀ i (h : i < s.length), cv[i]? = some (some (s.get ⟨i, h⟩))) := by
  have hne : seriesList d "time" ≠ [] := by
    intro hnil
    rw [hnil] at hlen
    exact Nat.not_lt_zero _ hlen
  obtain ⟨df, hdf, hcol⟩ := project_metric_col hdata hd sel j key outKey hj hfind hne
  rw [seriesList_of_lookup hs] at hcol
  refine ⟨df, _, hdf, hcol, by simp, ?_, ?_⟩
  · intro i hi hsi
    rw [List.getElem?_map, List.getElem?_range hi, Option.map_some',
      List.getElem?_eq_none hsi]
  · intro i h
    have hi : i < (seriesList d "time").length := Nat.lt_trans h hlen
    rw [List.getElem?_map, List.getElem?_range hi, Option.map_some',
      List.getElem?_eq_getElem h]
    rfl

/-- C2: for every document whose `data` entry is a mapping of named
arrays, if a requested metric series is shorter than `time`, then all
three projections still succeed, and in the projection requesting it the
series' output column carries `None` at every row index at or beyond the
series' length and the series' element at every in-bounds row index. -/
theorem C2_short_series_padded (L : SimulationDataLoader) (stats d : Doc)
    (hdata : lookupKey stats "data" = some (.obj d)) (hd : IsArrayDoc d)
    (sel : List (String × String))
    (hsel : sel = populationSeries ∨ sel = speciesSeries ∨
      sel = interactionsSeries)
    (key outKey : String) (s : List JValue)
    (hmem : (key, outKey) ∈ sel)
    (hs : lookupKey d key = some (.arr s))
    (hlen : s.length < (seriesList d "time").length) :
    (∃ dfp, L.to_population_dataframe stats = .ok dfp) ∧
    (∃ dfs, L.to_species_dataframe stats = .ok dfs) ∧
    (∃ dfi, L.to_interactions_dataframe stats = .ok dfi) ∧
    (∃ df cv, project stats sel = .ok df ∧ getCol df outKey = some cv ∧
      cv.length = (seriesList d "time").length ∧
      (∀ i, i < (seriesList d "time").length → s.length ≤ i →
        cv[i]? = some none) ∧
      (∀ i (h : i < s.length), cv[i]? = some (some (s.get ⟨i, h⟩)))) := by
  refine ⟨⟨_, project_ok hdata hd _⟩, ⟨_, project_ok hdata hd _⟩,
    ⟨_, project_ok hdata hd _⟩, ?_⟩
  rcases hsel with rfl | rfl | rfl
  · rcases (by simpa [populationSeries] using hmem :
        key = "aliveOrganisms" ∧ outKey = "alive_organisms" ∨
        key = "foodCount" ∧ outKey = "food_count" ∨
        key = "averageEnergy" ∧ outKey = "average_energy") with
      ⟨rfl, rfl⟩ | ⟨rfl, rfl⟩ | ⟨rfl, rfl⟩
    · exact metric_col_props hdata hd _ 0 _ _ rfl (by decide) s hs hlen
    · exact metric_col_props hdata hd _ 1 _ _ rfl (by decide) s hs hlen
    · exact metric_col_props hdata hd _ 2 _ _ rfl (by decide) s hs hlen
  · rcases (by simpa [speciesSeries] using hmem :
        key = "speciesCount" ∧ outKey = "species_count" ∨
        key = "topSpeciesCount" ∧ outKey = "top_species_count") with
      ⟨rfl, rfl⟩ | ⟨rfl, rfl⟩
    · exact metric_col_props hdata hd _ 0 _ _ rfl (by decide) s hs hlen
    · exact metric_col_props hdata hd _ 1 _ _ rfl (by decide) s hs hlen
  · rcases (by simpa [interactionsSeries] using hmem :
        key = "combatKills" ∧ outKey = "combat_kills" ∨
        key = "cooperationEvents" ∧ outKey = "cooperation_events" ∨
        key = "averageGenomeLength" ∧ outKey = "average_genome_length") with
      ⟨rfl, rfl⟩ | ⟨rfl, rfl⟩ | ⟨rfl, rfl⟩
    · exact metric_col_props hdata hd _ 0 _ _ rfl (by decide) s hs hlen
    · exact metric_col_props hdata hd _ 1 _ _ rfl (by decide) s hs hlen
    · exact metric_col_props hdata hd _ 2 _ _ rfl (by decide) s hs hlen

/-- Witness for C2: `aliveOrganisms = [10, 9]` against `time = [0,1,2]`. -/
theorem C2_short_series_padded_witness :
    ∃ df cv,
      project
        [("data", JValue.obj
          [("time", JValue.arr [JValue.num 0, JValue.num 1, JValue.num 2]),
           ("aliveOrganisms", JValue.arr [JValue.num 10, JValue.num 9])])]
        populationSeries = .ok df ∧
      getCol df "alive_organisms" = some cv ∧
      cv.length = 3 ∧
      (∀ i, i < 3 → 2 ≤ i → cv[i]? = some none) ∧
      (∀ i (h : i < 2), cv[i]? = some (some
        ([JValue.num 10, JValue.num 9].get ⟨i, h⟩))) :=
  (C2_short_series_padded (SimulationDataLoader.mk "../data")
    [("data", JValue.obj
      [("time", JValue.arr [JValue.num 0, JValue.num 1, JValue.num 2]),
       ("aliveOrganisms", JValue.arr [JValue.num 10, JValue.num 9])])]
    [("time", JValue.arr [JValue.num 0, JValue.num 1, JValue.num 2]),
     ("aliveOrganisms", JValue.arr [JValue.num 10, JValue.num 9])]
    rfl (by unfold IsArrayDoc; decide) populationSeries (Or.inl rfl)
    "aliveOrganisms" "alive_organisms" [JValue.num 10, JValue.num 9]
    (by decide) rfl (by decide)).2.2.2

/-- C3: on a document lacking the `data` key, every direct projection
fails with the `ValueError` `"No data found in statistics"`, while
`load_all_data` downgrades each of the three failures to an empty frame
plus a non-empty warning and still returns the metadata entry. -/
theorem C3_missing_data (L : SimulationDataLoader) (fs : FS) (fn : String)
    (stats : Doc) (hload : L.load_statistics fs fn = .ok stats)
    (hdata : lookupKey stats "data" = none) :
    L.to_population_dataframe stats
      = .error (.valueError "No data found in statistics") ∧
    L.to_species_dataframe stats
      = .error (.valueError "No data found in statistics") ∧
    L.to_interactions_dataframe stats
      = .error (.valueError "No data found in statistics") ∧
    L.load_all_data fs fn = .ok
      (⟨emptyDataFrame, emptyDataFrame, emptyDataFrame, L.get_metadata stats⟩,
       ["Warning: Could not load population data: No data found in statistics",
        "Warning: Could not load species data: No data found in statistics",
        "Warning: Could not load interactions data: No data found in statistics"]) ∧
    (∀ w ∈
      ["Warning: Could not load population data: No data found in statistics",
       "Warning: Could not load species data: No data found in statistics",
       "Warning: Could not load interactions data: No data found in statistics"],
      w ≠ "") := by
  have hp : ∀ sel, project stats sel
      = .error (.valueError "No data found in statistics") := by
    intro sel
    simp [project, hdata]
  refine ⟨hp _, hp _, hp _, ?_, by decide⟩
  simp [SimulationDataLoader.load_all_data, hload,
    SimulationDataLoader.to_population_dataframe,
    SimulationDataLoader.to_species_dataframe,
    SimulationDataLoader.to_interactions_dataframe, hp,
    tryDataFrame, isCatchable, errStr]

/-- Witness for C3 on `{"metadata": {"note": 1}}` stored at
`../data/sim.json`. -/
theorem C3_missing_data_witness :
    (SimulationDataLoader.mk "../data").load_all_data
      [("../data/sim.json", some [("metadata", JValue.obj [("note", JValue.num 1)])])]
      "sim.json" = .ok
      (⟨emptyDataFrame, emptyDataFrame, emptyDataFrame,
        JValue.obj [("note", JValue.num 1)]⟩,
       ["Warning: Could not load population data: No data found in statistics",
        "Warning: Could not load species data: No data found in statistics",
        "Warning: Could not load interactions data: No data found in statistics"]) :=
  (C3_missing_data (SimulationDataLoader.mk "../data")
    [("../data/sim.json", some [("metadata", JValue.obj [("note", JValue.num 1)])])]
    "sim.json" [("metadata", JValue.obj [("note", JValue.num 1)])]
    rfl rfl).2.2.2.1

/-- C4: a missing file makes `load_statistics` fail with
`FileNotFoundError` and unparseable content with `JSONDecodeError`, and
`load_all_data` propagates exactly the same error unmodified, producing
no result bundle. -/
theorem C4_read_errors_propagate (L : SimulationDataLoader) (fs : FS)
    (fn : String) :
    (fs.find? (fun p => p.1 == L.data_dir ++ "/" ++ fn) = none →
      L.load_statistics fs fn = .error .fileNotFoundError ∧
      L.load_all_data fs fn = .error .fileNotFoundError) ∧
    (∀ path, fs.find? (fun p => p.1 == L.data_dir ++ "/" ++ fn)
        = some (path, none) →
      L.load_statistics fs fn = .error .jsonDecodeError ∧
      L.load_all_data fs fn = .error .jsonDecodeError) := by
  constructor
  · intro h
    have hs : L.load_statistics fs fn = .error .fileNotFoundError := by
      simp [SimulationDataLoader.load_statistics, h]
    exact ⟨hs, by simp [SimulationDataLoader.load_all_data, hs]⟩
  · intro path h
    have hs : L.load_statistics fs fn = .error .jsonDecodeError := by
      simp [SimulationDataLoader.load_statistics, h]
    exact ⟨hs, by simp [SimulationDataLoader.load_all_data, hs]⟩

/-- Witness for C4: an empty file system (`missing.json` does not exist)
and a file system where the file's content is not valid JSON. -/
theorem C4_read_errors_propagate_witness :
    ((SimulationDataLoader.mk "../data").load_statistics [] "missing.json"
        = .error .fileNotFoundError ∧
      (SimulationDataLoader.mk "../data").load_all_data [] "missing.json"
        = .error .fileNotFoundError) ∧
    ((SimulationDataLoader.mk "../data").load_statistics
        [("../data/bad.json", none)] "bad.json" = .error .jsonDecodeError ∧
      (SimulationDataLoader.mk "../data").load_all_data
        [("../data/bad.json", none)] "bad.json" = .error .jsonDecodeError) :=
  ⟨(C4_read_errors_propagate (SimulationDataLoader.mk "../data") []
      "missing.json").1 rfl,
   (C4_read_errors_propagate (SimulationDataLoader.mk "../data")
      [("../data/bad.json", none)] "bad.json").2 "../data/bad.json" rfl⟩

theorem project_cols {stats d : Doc}
    (hdata : lookupKey stats "data" = some (.obj d)) (hd : IsArrayDoc d)
    (sel : List (String × String)) :
    ∃ df, project stats sel = .ok df ∧
      (seriesList d "time" = [] → df.cols = ["step"]) ∧
      (seriesList d "time" ≠ [] →
        df.cols = ("time" :: sel.map Prod.snd) ++ ["step"]) := by
  refine ⟨_, project_ok hdata hd sel, ?_, ?_⟩
  · intro hts
    rw [hts]
    simp [pureRecords, mkDataFrame, addStep]
  · intro hne
    cases hts : seriesList d "time" with
    | nil => exact absurd hts hne
    | cons t ts' => rw [addStep_pureRecords_cons]

/-- C5 is false as stated: on `{"data": {}}` (a `data` mapping with an
absent, hence empty, `time` series) the population projection succeeds
but its only column is `step` — the claimed column set
`{time, alive_organisms, food_count, average_energy, step}` is absent. -/
theorem C5_counterexample :
    ∃ df, (SimulationDataLoader.mk "../data").to_population_dataframe
        [("data", JValue.obj [])] = .ok df ∧
      df.cols = ["step"] ∧ ¬ ("time" ∈ df.cols) :=
  ⟨⟨["step"], []⟩, rfl, rfl, by decide⟩

/-- C5 (amended): for every document whose `data` entry is a mapping of
named arrays, when the `time` series is non-empty each projection's
column list is exactly the index key, the requested series renamed to
their output field names, and `step`; when `time` is empty or absent the
resulting table's only column is `step`. -/
theorem C5_column_sets (L : SimulationDataLoader) (stats d : Doc)
    (hdata : lookupKey stats "data" = some (.obj d)) (hd : IsArrayDoc d) :
    (seriesList d "time" ≠ [] →
      (∃ df, L.to_population_dataframe stats = .ok df ∧
        df.cols = ["time", "alive_organisms", "food_count",
          "average_energy", "step"]) ∧
      (∃ df, L.to_species_dataframe stats = .ok df ∧
        df.cols = ["time", "species_count", "top_species_count", "step"]) ∧
      (∃ df, L.to_interactions_dataframe stats = .ok df ∧
        df.cols = ["time", "combat_kills", "cooperation_events",
          "average_genome_length", "step"])) ∧
    (seriesList d "time" = [] →
      (∃ df, L.to_population_dataframe stats = .ok df ∧ df.cols = ["step"]) ∧
      (∃ df, L.to_species_dataframe stats = .ok df ∧ df.cols = ["step"]) ∧
      (∃ df, L.to_interactions_dataframe stats = .ok df ∧
        df.cols = ["step"])) := by
  constructor
  · intro hne
    refine ⟨?_, ?_, ?_⟩
    · obtain ⟨df, h1, _, h2⟩ := project_cols hdata hd populationSeries
      exact ⟨df, h1, by rw [h2 hne]; rfl⟩
    · obtain ⟨df, h1, _, h2⟩ := project_cols hdata hd speciesSeries
      exact ⟨df, h1, by rw [h2 hne]; rfl⟩
    · obtain ⟨df, h1, _, h2⟩ := project_cols hdata hd interactionsSeries
      exact ⟨df, h1, by rw [h2 hne]; rfl⟩
  · intro heq
    refine ⟨?_, ?_, ?_⟩
    · obtain ⟨df, h1, h2, _⟩ := project_cols hdata hd populationSeries
      exact ⟨df, h1, h2 heq⟩
    · obtain ⟨df, h1, h2, _⟩ := project_cols hdata hd speciesSeries
      exact ⟨df, h1, h2 heq⟩
    · obtain ⟨df, h1, h2, _⟩ := project_cols hdata hd interactionsSeries
      exact ⟨df, h1, h2 heq⟩

/-- Witness for the amended C5 in both regimes: a document with
`time = [0]` and a document with an empty `data` mapping. -/
theorem C5_column_sets_witness :
    (∃ df, (SimulationDataLoader.mk "../data").to_population_dataframe
        [("data", JValue.obj [("time", JValue.arr [JValue.num 0])])] = .ok df ∧
      df.cols = ["time", "alive_organisms", "food_count",
        "average_energy", "step"]) ∧
    (∃ df, (SimulationDataLoader.mk "../data").to_population_dataframe
        [("data", JValue.obj [])] = .ok df ∧ df.cols = ["step"]) :=
  ⟨((C5_column_sets (SimulationDataLoader.mk "../data")
      [("data", JValue.obj [("time", JValue.arr [JValue.num 0])])]
      [("time", JValue.arr [JValue.num 0])] rfl
      (by unfold IsArrayDoc; decide)).1 (List.cons_ne_nil _ _)).1,
   ((C5_column_sets (SimulationDataLoader.mk "../data")
      [("data", JValue.obj [])] [] rfl
      (by unfold IsArrayDoc; decide)).2 rfl).1⟩

/-- C6: `get_metadata` never fails; it returns exactly the value stored
under the `metadata` key, and the empty mapping when the key is absent. -/
theorem C6_metadata_passthrough (L : SimulationDataLoader) (stats : Doc) :
    (∀ v, lookupKey stats "metadata" = some v → L.get_metadata stats = v) ∧
    (lookupKey stats "metadata" = none →
      L.get_metadata stats = JValue.obj []) := by
  constructor
  · intro v h
    simp [SimulationDataLoader.get_metadata, h]
  · intro h
    simp [SimulationDataLoader.get_metadata, h]

/-- Witness for C6: a present free-form metadata value is passed through
untouched; an absent key yields the empty mapping. -/
theorem C6_metadata_passthrough_witness :
    (SimulationDataLoader.mk "../data").get_metadata
      [("metadata", JValue.obj [("generations", JValue.num 500)])]
      = JValue.obj [("generations", JValue.num 500)] ∧
    (SimulationDataLoader.mk "../data").get_metadata
      [("data", JValue.obj [])] = JValue.obj [] :=
  ⟨(C6_metadata_passthrough (SimulationDataLoader.mk "../data")
      [("metadata", JValue.obj [("generations", JValue.num 500)])]).1 _ rfl,
   (C6_metadata_passthrough (SimulationDataLoader.mk "../data")
      [("data", JValue.obj [])]).2 rfl⟩

/-- C8: the convenience function `load_simulation(filename, data_dir)` is
exactly the composite of constructing a loader over `data_dir` and
calling `load_all_data(filename)` — same result, same error, in every
environment. -/
theorem C8_load_simulation_equiv (fs : FS) (filename data_dir : String) :
    load_simulation fs filename data_dir
      = (SimulationDataLoader.mk data_dir).load_all_data fs filename := rfl

theorem absent_col_helper {stats d : Doc}
    (hdata : lookupKey stats "data" = some (.obj d)) (hd : IsArrayDoc d)
    (sel : List (String × String)) (j : Nat) (key outKey : String)
    (hj : sel[j]? = some (key, outKey))
    (hfind : (("time" :: sel.map Prod.snd) ++ ["step"]).findIdx?
        (fun x => x == outKey) = some (j + 1))
    (habs : lookupKey d key = none) (hne : seriesList d "time" ≠ []) :
    getCol (addStep (mkDataFrame (pureRecords d sel (seriesList d "time") 0)))
        outKey
      = some (List.replicate (seriesList d "time").length none) := by
  obtain ⟨df, hdf, hcol⟩ :=
    project_metric_col hdata hd sel j key outKey hj hfind hne
  rw [project_ok hdata hd sel] at hdf
  cases hdf
  rw [hcol, seriesList_of_lookup_none habs]
  rw [show (fun i : Nat => ([] : List JValue)[i]?) = fun _ : Nat => none from
    funext (fun i => rfl)]
  rw [List.map_const', List.length_range]

/-- C7: for every document whose `data` entry is a mapping of named
arrays, a requested metric series that is absent from `data` is treated
as empty: the projection succeeds with one row per `time` entry, and
(when any rows exist) that series' output column is all `None`. -/
theorem C7_absent_series_all_null (stats d : Doc)
    (hdata : lookupKey stats "data" = some (.obj d)) (hd : IsArrayDoc d)
    (sel : List (String × String))
    (hsel : sel = populationSeries ∨ sel = speciesSeries ∨
      sel = interactionsSeries)
    (key outKey : String) (hmem : (key, outKey) ∈ sel)
    (habs : lookupKey d key = none) :
    ∃ df, project stats sel = .ok df ∧
      df.cells.length = (seriesList d "time").length ∧
      (seriesList d "time" ≠ [] →
        getCol df outKey
          = some (List.replicate (seriesList d "time").length none)) := by
  refine ⟨_, project_ok hdata hd sel, ?_, ?_⟩
  · simp [addStep, addStepCells_length, mkDataFrame_cells, pureRecords_length]
  · intro hne
    rcases hsel with rfl | rfl | rfl
    · rcases (by simpa [populationSeries] using hmem :
          key = "aliveOrganisms" ∧ outKey = "alive_organisms" ∨
          key = "foodCount" ∧ outKey = "food_count" ∨
          key = "averageEnergy" ∧ outKey = "average_energy") with
        ⟨rfl, rfl⟩ | ⟨rfl, rfl⟩ | ⟨rfl, rfl⟩
      · exact absent_col_helper hdata hd _ 0 _ _ rfl (by decide) habs hne
      · exact absent_col_helper hdata hd _ 1 _ _ rfl (by decide) habs hne
      · exact absent_col_helper hdata hd _ 2 _ _ rfl (by decide) habs hne
    · rcases (by simpa [speciesSeries] using hmem :
          key = "speciesCount" ∧ outKey = "species_count" ∨
          key = "topSpeciesCount" ∧ outKey = "top_species_count") with
        ⟨rfl, rfl⟩ | ⟨rfl, rfl⟩
      · exact absent_col_helper hdata hd _ 0 _ _ rfl (by decide) habs hne
      · exact absent_col_helper hdata hd _ 1 _ _ rfl (by decide) habs hne
    · rcases (by simpa [interactionsSeries] using hmem :
          key = "combatKills" ∧ outKey = "combat_kills" ∨
          key = "cooperationEvents" ∧ outKey = "cooperation_events" ∨
          key = "averageGenomeLength" ∧ outKey = "average_genome_length") with
        ⟨rfl, rfl⟩ | ⟨rfl, rfl⟩ | ⟨rfl, rfl⟩
      · exact absent_col_helper hdata hd _ 0 _ _ rfl (by decide) habs hne
      · exact absent_col_helper hdata hd _ 1 _ _ rfl (by decide) habs hne
      · exact absent_col_helper hdata hd _ 2 _ _ rfl (by decide) habs hne

/-- Witness for C7: `foodCount` is absent from
`{"data": {"time": [0,1], "aliveOrganisms": [5,6]}}`. -/
theorem C7_absent_series_all_null_witness :
    ∃ df, project
        [("data", JValue.obj
          [("time", JValue.arr [JValue.num 0, JValue.num 1]),
           ("aliveOrganisms", JValue.arr [JValue.num 5, JValue.num 6])])]
        populationSeries = .ok df ∧
      df.cells.length = 2 ∧
      ([JValue.num 0, JValue.num 1] ≠ [] →
        getCol df "food_count" = some (List.replicate 2 none)) :=
  C7_absent_series_all_null
    [("data", JValue.obj
      [("time", JValue.arr [JValue.num 0, JValue.num 1]),
       ("aliveOrganisms", JValue.arr [JValue.num 5, JValue.num 6])])]
    [("time", JValue.arr [JValue.num 0, JValue.num 1]),
     ("aliveOrganisms", JValue.arr [JValue.num 5, JValue.num 6])]
    rfl (by unfold IsArrayDoc; decide) populationSeries (Or.inl rfl)
    "foodCount" "food_count" (by decide) rfl

/-- Statement that `r` did not raise a fatal (uncaught) exception kind: it succeeded or
failed with one of the kinds `load_all_data` catches. -/
def NoFatal (r : Except PyError DataFrame) : Prop :=
  ∀ e, r = .error e → isCatchable e = true

theorem load_all_data_eq (L : SimulationDataLoader) (fs : FS) (fn : String)
    (stats : Doc) (hload : L.load_statistics fs fn = .ok stats) :
    L.load_all_data fs fn = (do
      let (pop, w1) ← tryDataFrame "population"
        (L.to_population_dataframe stats)
      let (spec, w2) ← tryDataFrame "species" (L.to_species_dataframe stats)
      let (inter, w3) ← tryDataFrame "interactions"
        (L.to_interactions_dataframe stats)
      pure (⟨pop, spec, inter, L.get_metadata stats⟩, w1 ++ w2 ++ w3)) := by
  simp [SimulationDataLoader.load_all_data, hload]

theorem tryDataFrame_error {name : String} {r : Except PyError DataFrame}
    {e : PyError} (h : tryDataFrame name r = .error e) :
    r = .error e ∧ isCatchable e = false := by
  cases r with
  | ok df => simp [tryDataFrame] at h
  | error e' =>
    by_cases hc : isCatchable e' = true
    · simp [tryDataFrame, hc] at h
    · rw [tryDataFrame, if_neg hc] at h
      cases h
      exact ⟨rfl, Bool.not_eq_true _ ▸ hc⟩

theorem tryDataFrame_fatal {name : String} {e : PyError}
    (h : isCatchable e = false) :
    tryDataFrame name (.error e) = .error e := by
  simp [tryDataFrame, h]

theorem tryDataFrame_ok_of_nofatal {name : String}
    {r : Except PyError DataFrame} (h : NoFatal r) :
    ∃ pr, tryDataFrame name r = .ok pr := by
  cases r with
  | ok df => exact ⟨(df, []), rfl⟩
  | error e =>
    exact ⟨(emptyDataFrame,
      ["Warning: Could not load " ++ name ++ " data: " ++ errStr e]),
      by simp [tryDataFrame, h e rfl]⟩

/-- C9 (implicit): `load_all_data` downgrades exactly the exception kinds
`ValueError`, `KeyError`, `IndexError` raised inside a projection; any
other kind (such as the attribute error of a non-mapping `data`, or the
type error of a non-sequence `time`) propagates, in projection order,
and aborts the whole operation. -/
theorem C9_catch_set (L : SimulationDataLoader) (fs : FS) (fn : String)
    (stats : Doc) (hload : L.load_statistics fs fn = .ok stats) :
    (∀ e, isCatchable e = true ↔
      ((∃ m, e = .valueError m) ∨ e = .keyError ∨ e = .indexError)) ∧
    (∀ e, L.load_all_data fs fn = .error e → isCatchable e = false) ∧
    (∀ e, isCatchable e = false →
      (L.to_population_dataframe stats = .error e →
        L.load_all_data fs fn = .error e) ∧
      (NoFatal (L.to_population_dataframe stats) →
        L.to_species_dataframe stats = .error e →
        L.load_all_data fs fn = .error e) ∧
      (NoFatal (L.to_population_dataframe stats) →
        NoFatal (L.to_species_dataframe stats) →
        L.to_interactions_dataframe stats = .error e →
        L.load_all_data fs fn = .error e)) := by
  refine ⟨?_, ?_, ?_⟩
  · intro e
    cases e <;> simp [isCatchable]
  · intro e herr
    rw [load_all_data_eq L fs fn stats hload] at herr
    cases h1 : tryDataFrame "population" (L.to_population_dataframe stats) with
    | error e1 =>
      rw [h1] at herr
      simp at herr
      cases herr
      exact (tryDataFrame_error h1).2
    | ok p1 =>
      obtain ⟨pop, w1⟩ := p1
      rw [h1] at herr
      simp only [pyOkBind] at herr
      cases h2 : tryDataFrame "species" (L.to_species_dataframe stats) with
      | error e2 =>
        rw [h2] at herr
        simp at herr
        cases herr
        exact (tryDataFrame_error h2).2
      | ok p2 =>
        obtain ⟨spec, w2⟩ := p2
        rw [h2] at herr
        simp only [pyOkBind] at herr
        cases h3 : tryDataFrame "interactions"
            (L.to_interactions_dataframe stats) with
        | error e3 =>
          rw [h3] at herr
          simp at herr
          cases herr
          exact (tryDataFrame_error h3).2
        | ok p3 =>
          obtain ⟨inter, w3⟩ := p3
          rw [h3] at herr
          simp at herr
  · intro e hc
    refine ⟨?_, ?_, ?_⟩
    · intro hpop
      rw [load_all_data_eq L fs fn stats hload, hpop, tryDataFrame_fatal hc]
      rfl
    · intro hnf hspec
      obtain ⟨⟨pop, w1⟩, h1⟩ :=
        @tryDataFrame_ok_of_nofatal "population" _ hnf
      rw [load_all_data_eq L fs fn stats hload, h1]
      simp only [pyOkBind]
      rw [hspec, tryDataFrame_fatal hc]
      rfl
    · intro hnf1 hnf2 hinter
      obtain ⟨⟨pop, w1⟩, h1⟩ :=
        @tryDataFrame_ok_of_nofatal "population" _ hnf1
      obtain ⟨⟨spec, w2⟩, h2⟩ :=
        @tryDataFrame_ok_of_nofatal "species" _ hnf2
      rw [load_all_data_eq L fs fn stats hload, h1]
      simp only [pyOkBind]
      rw [h2]
      simp only [pyOkBind]
      rw [hinter, tryDataFrame_fatal hc]
      rfl

/-- Witness for C9: a document whose `data` entry is the number `3` (not
a mapping) makes the projection raise an attribute error, which
`load_all_data` does not downgrade. -/
theorem C9_catch_set_witness :
    isCatchable .attributeError = false ∧
    (SimulationDataLoader.mk "../data").load_all_data
      [("../data/f.json", some [("data", JValue.num 3)])] "f.json"
      = .error .attributeError :=
  ⟨rfl,
   ((C9_catch_set (SimulationDataLoader.mk "../data")
      [("../data/f.json", some [("data", JValue.num 3)])] "f.json"
      [("data", JValue.num 3)] rfl).2.2 .attributeError rfl).1 rfl⟩

theorem getElem?_of_take_eq {α : Type} {l l' : List α} {n : Nat}
    (h : l.take n = l'.take n) {i : Nat} (hi : i < n) : l[i]? = l'[i]? := by
  rw [← List.getElem?_take_of_lt (l := l) hi, h,
    List.getElem?_take_of_lt hi]

theorem pureRecords_congr (d d' : Doc) (sel : List (String × String))
    (N : Nat)
    (H : ∀ q ∈ sel, ∀ i, i < N →
      (seriesList d q.1)[i]? = (seriesList d' q.1)[i]?) :
    ∀ (ts : List JValue) (n : Nat), n + ts.length ≤ N →
      pureRecords d sel ts n = pureRecords d' sel ts n
  | [], _, _ => rfl
  | t :: ts, n, h => by
    have hn : n < N := by
      simp only [List.length_cons] at h
      omega
    have hmap : sel.map (fun q => (q.2, (seriesList d q.1)[n]?))
        = sel.map (fun q => (q.2, (seriesList d' q.1)[n]?)) :=
      List.map_congr_left (fun q hq => by rw [H q hq n hn])
    simp only [pureRecords]
    rw [hmap, pureRecords_congr d d' sel N H ts (n + 1) (by
      simp only [List.length_cons] at h
      omega)]

/-- C10 (implicit): for every pair of documents (each with a `data`
mapping of named arrays) sharing the same `time` array, if every
requested metric series agrees on its first `len(time)` elements then
each projection produces identical tables — elements of a series at or
beyond `len(time)` never affect the result — and each table has exactly
`len(time)` rows. -/
theorem C10_long_series_truncated (L : SimulationDataLoader)
    (stats stats' d d' : Doc) (ts : List JValue)
    (hdata : lookupKey stats "data" = some (.obj d))
    (hdata' : lookupKey stats' "data" = some (.obj d'))
    (hd : IsArrayDoc d) (hd' : IsArrayDoc d')
    (ht : lookupKey d "time" = some (.arr ts))
    (ht' : lookupKey d' "time" = some (.arr ts))
    (htrunc : ∀ q ∈ populationSeries ++ speciesSeries ++ interactionsSeries,
      (seriesList d q.1).take ts.length
        = (seriesList d' q.1).take ts.length) :
    (L.to_population_dataframe stats = L.to_population_dataframe stats' ∧
      ∃ df, L.to_population_dataframe stats = .ok df ∧
        df.cells.length = ts.length) ∧
    (L.to_species_dataframe stats = L.to_species_dataframe stats' ∧
      ∃ df, L.to_species_dataframe stats = .ok df ∧
        df.cells.length = ts.length) ∧
    (L.to_interactions_dataframe stats = L.to_interactions_dataframe stats' ∧
      ∃ df, L.to_interactions_dataframe stats = .ok df ∧
        df.cells.length = ts.length) := by
  have hts : seriesList d "time" = ts := seriesList_of_lookup ht
  have hts' : seriesList d' "time" = ts := seriesList_of_lookup ht'
  have key : ∀ sel : List (String × String),
      (∀ q ∈ sel, (seriesList d q.1).take ts.length
          = (seriesList d' q.1).take ts.length) →
      project stats sel = project stats' sel ∧
      ∃ df, project stats sel = .ok df ∧ df.cells.length = ts.length := by
    intro sel hsub
    constructor
    · rw [project_ok hdata hd sel, project_ok hdata' hd' sel, hts, hts',
        pureRecords_congr d d' sel ts.length
          (fun q hq i hi => getElem?_of_take_eq (hsub q hq) hi) ts 0
          (by omega)]
    · obtain ⟨df, h1, h2⟩ := project_cells_length hdata hd sel
      exact ⟨df, h1, by rw [h2, hts]⟩
  exact ⟨key populationSeries (fun q hq => htrunc q
      (List.mem_append_left _ (List.mem_append_left _ hq))),
    key speciesSeries (fun q hq => htrunc q
      (List.mem_append_left _ (List.mem_append_right _ hq))),
    key interactionsSeries (fun q hq => htrunc q
      (List.mem_append_right _ hq))⟩

/-- Witness for C10: `aliveOrganisms = [5, 9]` against `time = [0]`
produces the same population table as the pre-truncated
`aliveOrganisms = [5]`. -/
theorem C10_long_series_truncated_witness :
    (SimulationDataLoader.mk "../data").to_population_dataframe
      [("data", JValue.obj
        [("time", JValue.arr [JValue.num 0]),
         ("aliveOrganisms", JValue.arr [JValue.num 5, JValue.num 9])])]
      = (SimulationDataLoader.mk "../data").to_population_dataframe
      [("data", JValue.obj
        [("time", JValue.arr [JValue.num 0]),
         ("aliveOrganisms", JValue.arr [JValue.num 5])])] :=
  ((C10_long_series_truncated (SimulationDataLoader.mk "../data")
    [("data", JValue.obj
      [("time", JValue.arr [JValue.num 0]),
       ("aliveOrganisms", JValue.arr [JValue.num 5, JValue.num 9])])]
    [("data", JValue.obj
      [("time", JValue.arr [JValue.num 0]),
       ("aliveOrganisms", JValue.arr [JValue.num 5])])]
    [("time", JValue.arr [JValue.num 0]),
     ("aliveOrganisms", JValue.arr [JValue.num 5, JValue.num 9])]
    [("time", JValue.arr [JValue.num 0]),
     ("aliveOrganisms", JValue.arr [JValue.num 5])]
    [JValue.num 0] rfl rfl (by unfold IsArrayDoc; decide)
    (by unfold IsArrayDoc; decide) rfl rfl
    (by intro q hq; fin_cases hq <;> rfl)).1).1
